import Mathlib

/-!
Shallow embedding of `StaticAnalyzer/views/ios/binary_analysis.py` (iOS IPA
binary analysis).  Pure Python functions become Lean functions; effectful
calls into the OS, Django settings, macholib and the other MobSF modules are
represented by oracles: an environment record supplies, for each external
call, either its return value (`Except.ok`) or the fact that it raised
(`Except.error`).  Externally visible side effects of `class_dump`
(`os.chmod`, `subprocess.check_output`, the artifact write) are recorded in
an event trace so that theorems can speak about which invocations happened
and with which options.
-/

/-- A raised Python exception.  Every handler in this module is a bare
`except Exception`, so a single constructor is enough. -/
inductive PyExn where
  | exn : PyExn
deriving DecidableEq

/-- Python's `sub in s` containment test on strings / byte strings:
`true` iff `sub` occurs as a contiguous run inside `s`. -/
def containsSub {α : Type} [BEq α] (sub : List α) : List α → Bool
  | [] => sub.isEmpty
  | a :: rest => sub.isPrefixOf (a :: rest) || containsSub sub rest

/-- Python `s.endswith(suff)`. -/
def strEndsWith (s suff : String) : Bool :=
  suff.data.isSuffixOf s.data

/-- Python `s.startswith(pre)`. -/
def strStartsWith (s pre : String) : Bool :=
  pre.data.isPrefixOf s.data

/-- `os.path.join(a, b)` for the two-component joins used in this module:
an absolute second component replaces the first, otherwise the components
are joined with a single separator. -/
def osPathJoin (a b : String) : String :=
  if strStartsWith b "/" then b
  else if a = "" then b
  else if strEndsWith a "/" then a ++ b
  else a ++ "/" ++ b

/-- Fuel-indexed worker for Python `s.replace(pat, new)` (replace all
occurrences, scanning left to right).  The fuel is instantiated with the
length of `s`, which is enough for every step to make progress. -/
def pyReplaceAux (pat new : List Char) : Nat → List Char → List Char
  | _, [] => []
  | 0, s => s
  | n + 1, c :: rest =>
    if ¬pat.isEmpty ∧ pat.isPrefixOf (c :: rest) then
      new ++ pyReplaceAux pat new n (List.drop (pat.length - 1) rest)
    else
      c :: pyReplaceAux pat new n rest

/-- Python `s.replace(pat, new)` (all occurrences). -/
def pyReplace (s pat new : String) : String :=
  String.mk (pyReplaceAux pat.data new.data s.data.length s.data)

/-- `detect_bin_type(libs)`: `'Swift'` when some linked-library identifier
contains the substring `'libswiftCore.dylib'`, else `'Objective C'`. -/
def detect_bin_type (libs : List String) : String :=
  if libs.any (fun itm => containsSub "libswiftCore.dylib".data itm.data) then
    "Swift"
  else
    "Objective C"

/-- `MH_MAGIC_64` from `macholib.mach_o` (64-bit Mach-O magic, little-endian
byte order as stored). -/
def MH_MAGIC_64 : Nat := 0xfeedfacf

/-- `MH_CIGAM_64` from `macholib.mach_o` (byte-swapped 64-bit magic). -/
def MH_CIGAM_64 : Nat := 0xcffaedfe

/-- One parsed Mach-O header as macholib exposes it: the magic it was
recognised with (`header.MH_MAGIC`), the endianness marker
(`header.endian`, `'<'` little / `'>'` big), and the raw CPU type and
subtype integers. -/
structure MachHeader where
  magic : Nat
  endian : Char
  cputype : Nat
  cpusubtype : Nat
deriving DecidableEq

/-- The dictionary built by `get_bin_info` for one header. -/
structure BinInfo where
  endian : Char
  bit : String
  arch : String
  subarch : String
deriving DecidableEq

/-- The `for header in m.headers` loop of `get_bin_info`: the loop body ends
in an unconditional `return`, so the function returns the record built from
the first header of the container and `None` (here `none`) when the header
list is empty.  `cpuName` and `cpuSub` are the macholib lookup tables
`CPU_TYPE_NAMES.get` and `get_cpu_subtype`, supplied as oracles. -/
def get_bin_info_headers (cpuName : Nat → String) (cpuSub : Nat → Nat → String) :
    List MachHeader → Option BinInfo
  | [] => none
  | h :: _ =>
    some { endian := h.endian,
           bit := if h.magic = MH_MAGIC_64 ∨ h.magic = MH_CIGAM_64 then "64-bit" else "32-bit",
           arch := cpuName h.cputype,
           subarch := cpuSub h.cputype h.cpusubtype }

/-- `get_bin_info(bin_file)`: `MachO(bin_file)` may raise while parsing; on
success the header loop runs.  The parse outcome is the oracle `parse`. -/
def get_bin_info (parse : Except PyExn (List MachHeader))
    (cpuName : Nat → String) (cpuSub : Nat → Nat → String) :
    Except PyExn (Option BinInfo) :=
  match parse with
  | Except.error e => Except.error e
  | Except.ok headers => Except.ok (get_bin_info_headers cpuName cpuSub headers)

/-- Outcome of one `subprocess.check_output` call: captured stdout bytes,
a `TimeoutExpired`, or some other failure (`CalledProcessError`, missing
file, ...). -/
inductive SubprocResult where
  | out : List Nat → SubprocResult
  | timeout : SubprocResult
  | fail : SubprocResult
deriving DecidableEq

/-- Externally visible side effects of `class_dump`, in program order:
a permission grant `os.chmod(path, mode)`, a subprocess invocation with its
argument vector, optional timeout and whether stderr was redirected to
`os.devnull`, and the attempt to write the `classdump.txt` artifact. -/
inductive Event where
  | chmod : String → Nat → Event
  | invoke : List String → Option Nat → Bool → Event
  | writeArtifact : String → Event
deriving DecidableEq

/-- `stat.S_IEXEC` (owner-execute bit, octal `0o100`). -/
def S_IEXEC : Nat := 64

/-- The bytes of the broken-output sentinel `b'Source: (null)'`. -/
def brokenSentinel : List Nat :=
  [83, 111, 117, 114, 99, 101, 58, 32, 40, 110, 117, 108, 108, 41]

/-- Oracle environment for one `class_dump` call: `platform.system()`, the
two Django settings `CLASSDUMP_SWIFT_BINARY` / `CLASSDUMP_BINARY`,
`is_file_exists`, `os.access(·, os.X_OK)` as observed before any chmod,
whether `os.chmod` succeeds, the result of `get_otool_out` on Linux, and
the outcomes of the first and the fail-safe `subprocess.check_output`. -/
structure ClassDumpEnv where
  system : String
  swiftSetting : String
  objcSetting : String
  fileExists : String → Bool
  xok : String → Bool
  chmodOk : Bool
  otoolArgs : Except PyExn (List String)
  run1 : SubprocResult
  run2 : SubprocResult

/-- The Darwin tool-selection block of `class_dump` (lines choosing
`class_dump_bin`): a configured, existing settings override wins, otherwise
the bundled tool under `tools_dir` is used; which pair is consulted depends
on `bin_type == 'Swift'`. -/
def darwin_class_dump_bin (env : ClassDumpEnv) (tools_dir bin_type : String) : String :=
  if bin_type = "Swift" then
    if 0 < env.swiftSetting.length ∧ env.fileExists env.swiftSetting = true then
      env.swiftSetting
    else
      osPathJoin tools_dir "class-dump-swift"
  else
    if 0 < env.objcSetting.length ∧ env.fileExists env.objcSetting = true then
      env.objcSetting
    else
      osPathJoin tools_dir "class-dump"

/-- The tail of `class_dump` shared by the Darwin and Linux branches, from
the first `subprocess.check_output(args, stderr=devnull, timeout=30)` on:
on success the sentinel check may trigger the fail-safe
`subprocess.check_output` (no timeout, no stderr redirection) with
`tools_dir/class-dump-swift`; then the artifact write is attempted.  Any
raise is caught by the enclosing handler, which returns the bytes collected
so far (`b''` if the first call never produced output). -/
def class_dump_exec (env : ClassDumpEnv) (tools_dir bin_path app_dir : String)
    (args : List String) (pre : List Event) : List Nat × List Event :=
  let ev1 := Event.invoke args (some 30) true
  match env.run1 with
  | SubprocResult.out cd =>
    if containsSub brokenSentinel cd = true ∧ env.system = "Darwin" then
      let swiftBin := osPathJoin tools_dir "class-dump-swift"
      let ev2 := Event.invoke [swiftBin, bin_path] none false
      match env.run2 with
      | SubprocResult.out cd2 =>
        (cd2, pre ++ [ev1, ev2, Event.writeArtifact (osPathJoin app_dir "classdump.txt")])
      | _ => (cd, pre ++ [ev1, ev2])
    else
      (cd, pre ++ [ev1, Event.writeArtifact (osPathJoin app_dir "classdump.txt")])
  | _ => ([], pre ++ [ev1])

/-- `class_dump(tools_dir, bin_path, app_dir, bin_type)`.  Returns the bytes
the Python function returns together with the trace of side effects.  The
function itself never raises: everything is inside `try`, and the
`except Exception` handler returns the current `classdump` value. -/
def class_dump (env : ClassDumpEnv) (tools_dir bin_path app_dir bin_type : String) :
    List Nat × List Event :=
  if env.system = "Darwin" then
    let bin := darwin_class_dump_bin env tools_dir bin_type
    if env.xok bin = true then
      class_dump_exec env tools_dir bin_path app_dir [bin, bin_path] []
    else if env.chmodOk = true then
      class_dump_exec env tools_dir bin_path app_dir [bin, bin_path] [Event.chmod bin S_IEXEC]
    else
      ([], [Event.chmod bin S_IEXEC])
  else if env.system = "Linux" then
    match env.otoolArgs with
    | Except.ok args => class_dump_exec env tools_dir bin_path app_dir args []
    | Except.error _ => ([], [])
  else
    ([], [])

/-- `strings_on_ipa(bin_path)`: `strings_util` (the oracle) either returns
the raw string list, which is deduplicated via `list(set(...))` (modelled
as `eraseDups`; the set's iteration order is unspecified in Python), or
raises, in which case the handler only logs and the function falls off its
end returning Python `None` (`none`). -/
def strings_on_ipa (stringsUtil : Except PyExn (List String)) :
    Except PyExn (Option (List String)) :=
  match stringsUtil with
  | Except.ok l => Except.ok (some l.eraseDups)
  | Except.error _ => Except.ok none

/-- Result of the external `otool_analysis`: the `'libs'` list and the
`'bindata'` bytes that `binary_analysis` reads from it. -/
structure OtoolData where
  libs : List String
  bindata : List Nat
deriving DecidableEq

/-- The findings mapping filled in by the external `binary_rule_matcher`,
modelled opaquely as category/description pairs; `binary_analysis` only
moves the value into the report. -/
abbrev Findings := List (String × String)

/-- Oracle environment for one `binary_analysis` call. -/
structure PipelineEnv where
  listdir : Except PyExn (List String)
  fileExists : String → Bool
  machoParse : Except PyExn (List MachHeader)
  cpuName : Nat → String
  cpuSub : Nat → Nat → String
  otool : Except PyExn OtoolData
  tool : ClassDumpEnv
  ruleMatch : Except PyExn Findings
  stringsUtil : Except PyExn (List String)

/-- The report dictionary `binary_analysis` returns.  The keys `'libs'`,
`'bin_res'` and `'strings'` are assigned before the existence branch and so
are present in every returned dictionary; `'macho'` and `'bin_type'` are
represented as `Option` fields because the code only assigns them on the
branch where the executable exists (`none` = key absent).  The `'strings'`
value is itself an `Option` because `strings_on_ipa` can return Python
`None`, and the `'macho'` value is an `Option` because `get_bin_info`
returns `None` on a header-less container. -/
structure Report where
  libs : List String
  bin_res : Findings
  strings : Option (List String)
  macho : Option (Option BinInfo)
  bin_type : Option String
deriving DecidableEq

/-- The `for dir_ in dirs` loop locating the first entry ending in
`'.app'`, defaulting to `''`. -/
def find_dot_app (dirs : List String) : String :=
  (dirs.find? (fun d => strEndsWith d ".app")).getD ""

/-- Executable-name resolution: keep `executable_name` when it is truthy
(non-empty) and present in the bundle directory, else derive it from the
`.app` directory name. -/
def resolve_bin_name (fileExists : String → Bool) (bin_dir executable_name dot_app_dir : String) :
    String :=
  if executable_name ≠ "" ∧ fileExists (osPathJoin bin_dir executable_name) = true then
    executable_name
  else
    pyReplace dot_app_dir ".app" ""

/-- The full `bin_path` computation of `binary_analysis` from the listed
bundle entries. -/
def resolve_bin_path (fileExists : String → Bool) (src executable_name : String)
    (dirs : List String) : String :=
  let dot_app_dir := find_dot_app dirs
  let bin_dir := osPathJoin src dot_app_dir
  osPathJoin bin_dir (resolve_bin_name fileExists bin_dir executable_name dot_app_dir)

/-- The body of the `try` block of `binary_analysis`: any `Except.error`
models an exception travelling to the outermost handler. -/
def binary_analysis_body (env : PipelineEnv) (src tools_dir app_dir executable_name : String) :
    Except PyExn Report :=
  match env.listdir with
  | Except.error e => Except.error e
  | Except.ok dirs =>
    let bin_path := resolve_bin_path env.fileExists src executable_name dirs
    if env.fileExists bin_path = false then
      Except.ok { libs := [], bin_res := [], strings := some [], macho := none, bin_type := none }
    else
      match get_bin_info env.machoParse env.cpuName env.cpuSub with
      | Except.error e => Except.error e
      | Except.ok bin_info =>
        match env.otool with
        | Except.error e => Except.error e
        | Except.ok object_data =>
          let bin_type := detect_bin_type object_data.libs
          let _cdump := (class_dump env.tool tools_dir bin_path app_dir bin_type).1
          match env.ruleMatch with
          | Except.error e => Except.error e
          | Except.ok binary_findings =>
            match strings_on_ipa env.stringsUtil with
            | Except.error e => Except.error e
            | Except.ok strings_in_ipa =>
              Except.ok { libs := object_data.libs,
                          bin_res := binary_findings,
                          strings := strings_in_ipa,
                          macho := some bin_info,
                          bin_type := some bin_type }

/-- `binary_analysis(src, tools_dir, app_dir, executable_name)`: the whole
body runs under one `try`; `except Exception` logs and lets the function
fall off its end, i.e. return Python `None`.  So the call itself never
raises, and its value is either the report dictionary (`some`) or `None`
(`none`). -/
def binary_analysis (env : PipelineEnv) (src tools_dir app_dir executable_name : String) :
    Except PyExn (Option Report) :=
  match binary_analysis_body env src tools_dir app_dir executable_name with
  | Except.ok r => Except.ok (some r)
  | Except.error _ => Except.ok none

/-- Projection of a trace onto its subprocess invocations:
argument vector, timeout option, stderr-suppression flag. -/
def invokes (tr : List Event) : List (List String × Option Nat × Bool) :=
  tr.filterMap fun e =>
    match e with
    | Event.invoke a t s => some (a, t, s)
    | _ => none

/-- Trace discipline check: every invocation's tool (the head of its
argument vector) was executable at the time, either because
`os.access(·, X_OK)` already held or because an earlier `chmod` of the
trace granted it. -/
def execEnsured (xok : String → Bool) : List Event → Bool
  | [] => true
  | Event.chmod p _ :: rest =>
    execEnsured (fun q => if q = p then true else xok q) rest
  | Event.invoke args _ _ :: rest =>
    (match args.head? with
     | some tool => xok tool
     | none => true) && execEnsured xok rest
  | Event.writeArtifact _ :: rest => execEnsured xok rest

/-- POSIX `chmod` semantics as invoked through `os.chmod(path, mode)`: the
file's permission bits are replaced by `mode`; no prior bit survives. -/
def applyChmod (_old requested : Nat) : Nat := requested

/-- A `ClassDumpEnv` whose external calls all succeed trivially; used as the
tool environment inside the pipeline environments below. -/
def quietToolEnv : ClassDumpEnv :=
  { system := "Darwin", swiftSetting := "", objcSetting := "",
    fileExists := fun _ => false, xok := fun _ => true, chmodOk := true,
    otoolArgs := Except.ok [], run1 := SubprocResult.out [], run2 := SubprocResult.out [] }

/-- Pipeline environment in which `os.listdir(src)` raises (e.g. `src`
missing) and every later stage would succeed. -/
def envListdirRaises : PipelineEnv :=
  { listdir := Except.error PyExn.exn,
    fileExists := fun _ => false,
    machoParse := Except.ok [],
    cpuName := fun _ => "", cpuSub := fun _ _ => "",
    otool := Except.ok { libs := [], bindata := [] },
    tool := quietToolEnv,
    ruleMatch := Except.ok [],
    stringsUtil := Except.ok [] }

/-- Pipeline environment with one `Demo.app` bundle directory and no file
present on disk at all, so the resolved executable path does not exist. -/
def envNoBinary : PipelineEnv :=
  { listdir := Except.ok ["Demo.app"],
    fileExists := fun _ => false,
    machoParse := Except.ok [],
    cpuName := fun _ => "", cpuSub := fun _ _ => "",
    otool := Except.ok { libs := [], bindata := [] },
    tool := quietToolEnv,
    ruleMatch := Except.ok [],
    stringsUtil := Except.ok [] }

/-- Pipeline environment in which the executable exists and every stage
after header parsing would succeed, but `MachO(bin_file)` raises a parse
error. -/
def envParseError : PipelineEnv :=
  { listdir := Except.ok ["Demo.app"],
    fileExists := fun _ => true,
    machoParse := Except.error PyExn.exn,
    cpuName := fun _ => "", cpuSub := fun _ _ => "",
    otool := Except.ok { libs := ["libSystem.dylib"], bindata := [] },
    tool := quietToolEnv,
    ruleMatch := Except.ok [],
    stringsUtil := Except.ok ["s1"] }

/-- A 32-bit header (magic `MH_MAGIC`, `0xfeedface`) as the first slice of a
fat container. -/
def h32ex : MachHeader :=
  { magic := 0xfeedface, endian := '<', cputype := 7, cpusubtype := 3 }

/-- A 64-bit little-endian header as the second slice of the same fat
container. -/
def h64ex : MachHeader :=
  { magic := 0xfeedfacf, endian := '<', cputype := 16777223, cpusubtype := 3 }

/-- Darwin tool environment whose primary invocation returns exactly the
broken-output sentinel, triggering the fail-safe retry; no settings
overrides are configured and every tool is already executable. -/
def sentinelToolEnv : ClassDumpEnv :=
  { system := "Darwin", swiftSetting := "", objcSetting := "",
    fileExists := fun _ => false, xok := fun _ => true, chmodOk := true,
    otoolArgs := Except.ok [],
    run1 := SubprocResult.out brokenSentinel, run2 := SubprocResult.out [] }

/-- Darwin tool environment for the permission-discipline counterexample:
the bundled `class-dump` is executable but `class-dump-swift` is not, and
the primary output carries the sentinel so the retry runs anyway. -/
def noSwiftXokToolEnv : ClassDumpEnv :=
  { system := "Darwin", swiftSetting := "", objcSetting := "",
    fileExists := fun _ => false,
    xok := fun p => !(p == "tools/class-dump-swift"),
    chmodOk := true,
    otoolArgs := Except.ok [],
    run1 := SubprocResult.out brokenSentinel, run2 := SubprocResult.out [] }

/-- Darwin tool environment in which the selected tool lacks execute
permission, so `class_dump` issues the `chmod` grant before invoking it. -/
def chmodToolEnv : ClassDumpEnv :=
  { system := "Darwin", swiftSetting := "", objcSetting := "",
    fileExists := fun _ => false, xok := fun _ => false, chmodOk := true,
    otoolArgs := Except.ok [],
    run1 := SubprocResult.out [], run2 := SubprocResult.out [] }

/-- Darwin tool environment in which the primary `subprocess.check_output`
exceeds its 30-unit budget and raises `TimeoutExpired`. -/
def timeoutToolEnv : ClassDumpEnv :=
  { system := "Darwin", swiftSetting := "", objcSetting := "",
    fileExists := fun _ => false, xok := fun _ => true, chmodOk := true,
    otoolArgs := Except.ok [],
    run1 := SubprocResult.timeout, run2 := SubprocResult.out [] }

lemma containsSub_iff_infix {α : Type} [BEq α] [LawfulBEq α] (sub : List α) :
    ∀ s : List α, containsSub sub s = true ↔ sub <:+: s := by
  intro s
  induction s with
  | nil =>
    simp [containsSub, List.isEmpty_iff]
  | cons a rest ih =>
    rw [containsSub, List.infix_cons_iff]
    simp [List.isPrefixOf_iff_prefix, ih]

lemma invokes_append (t1 t2 : List Event) :
    invokes (t1 ++ t2) = invokes t1 ++ invokes t2 :=
  List.filterMap_append t1 t2 _

lemma class_dump_exec_trace_shape (env : ClassDumpEnv) (t b a : String)
    (args : List String) (pre : List Event) :
    ∃ rest, (class_dump_exec env t b a args pre).2 =
      pre ++ Event.invoke args (some 30) true :: rest := by
  rw [class_dump_exec]
  cases env.run1 with
  | out cd =>
    dsimp only
    by_cases hs : containsSub brokenSentinel cd = true ∧ env.system = "Darwin"
    · rw [if_pos hs]
      cases env.run2 <;> exact ⟨_, rfl⟩
    · rw [if_neg hs]
      exact ⟨_, rfl⟩
  | timeout => exact ⟨_, rfl⟩
  | fail => exact ⟨_, rfl⟩

lemma invokes_class_dump_exec (env : ClassDumpEnv) (t b a : String)
    (args : List String) (pre : List Event) (hpre : invokes pre = []) :
    invokes (class_dump_exec env t b a args pre).2 = [(args, some 30, true)] ∨
    invokes (class_dump_exec env t b a args pre).2 =
      [(args, some 30, true), ([osPathJoin t "class-dump-swift", b], none, false)] := by
  rw [class_dump_exec]
  cases env.run1 with
  | out cd =>
    dsimp only
    by_cases hs : containsSub brokenSentinel cd = true ∧ env.system = "Darwin"
    · rw [if_pos hs]
      cases env.run2 <;>
        (rw [invokes_append, hpre]; simp [invokes])
    · rw [if_neg hs]
      rw [invokes_append, hpre]; simp [invokes]
  | timeout => rw [invokes_append, hpre]; simp [invokes]
  | fail => rw [invokes_append, hpre]; simp [invokes]

lemma class_dump_exec_timeout (env : ClassDumpEnv) (t b a : String)
    (args : List String) (pre : List Event) (h : env.run1 = SubprocResult.timeout) :
    (class_dump_exec env t b a args pre).1 = [] := by
  rw [class_dump_exec, h]

lemma class_dump_shape (env : ClassDumpEnv) (t b a bt : String) :
    (∃ args pre, invokes pre = [] ∧
        (∀ q mm, Event.chmod q mm ∈ pre → mm = S_IEXEC) ∧
        class_dump env t b a bt = class_dump_exec env t b a args pre) ∨
    ((class_dump env t b a bt).1 = [] ∧ invokes (class_dump env t b a bt).2 = [] ∧
        (∀ q mm, Event.chmod q mm ∈ (class_dump env t b a bt).2 → mm = S_IEXEC)) := by
  rw [class_dump]
  by_cases hd : env.system = "Darwin"
  · rw [if_pos hd]
    by_cases hx : env.xok (darwin_class_dump_bin env t bt) = true
    · rw [if_pos hx]
      exact Or.inl ⟨_, [], rfl, by simp, rfl⟩
    · rw [if_neg hx]
      by_cases hc : env.chmodOk = true
      · rw [if_pos hc]
        refine Or.inl ⟨_, [Event.chmod (darwin_class_dump_bin env t bt) S_IEXEC],
          by simp [invokes], ?_, rfl⟩
        intro q mm hq
        simp only [List.mem_singleton, Event.chmod.injEq] at hq
        exact hq.2
      · rw [if_neg hc]
        refine Or.inr ⟨rfl, by simp [invokes], ?_⟩
        intro q mm hq
        simp only [List.mem_singleton, Event.chmod.injEq] at hq
        exact hq.2
  · rw [if_neg hd]
    by_cases hl : env.system = "Linux"
    · rw [if_pos hl]
      cases ho : env.otoolArgs with
      | ok args => exact Or.inl ⟨args, [], rfl, by simp, rfl⟩
      | error e => exact Or.inr ⟨rfl, by simp [invokes], by simp⟩
    · rw [if_neg hl]
      exact Or.inr ⟨rfl, by simp [invokes], by simp⟩

lemma chmod_mem_class_dump_exec (env : ClassDumpEnv) (t b a : String)
    (args : List String) (pre : List Event) (p : String) (m : Nat)
    (h : Event.chmod p m ∈ (class_dump_exec env t b a args pre).2) :
    Event.chmod p m ∈ pre := by
  rw [class_dump_exec] at h
  cases hr : env.run1 with
  | out cd =>
    rw [hr] at h
    dsimp only at h
    by_cases hs : containsSub brokenSentinel cd = true ∧ env.system = "Darwin"
    · rw [if_pos hs] at h
      cases hr2 : env.run2 <;> rw [hr2] at h <;> simpa using h
    · rw [if_neg hs] at h
      simpa using h
  | timeout => rw [hr] at h; simpa using h
  | fail => rw [hr] at h; simpa using h

/-- C4: `detect_bin_type` is pure and total over any list of library
identifier strings: it returns the managed-runtime classification
`'Swift'` if and only if at least one identifier contains the
case-sensitive substring `'libswiftCore.dylib'` (as a contiguous run of
characters), and otherwise — including on the empty list — it returns the
native-runtime classification `'Objective C'`. -/
theorem detect_bin_type_spec :
    ∀ libs : List String,
      (detect_bin_type libs = "Swift" ↔
        ∃ itm ∈ libs, "libswiftCore.dylib".data <:+: itm.data) ∧
      (detect_bin_type libs = "Objective C" ↔
        ¬∃ itm ∈ libs, "libswiftCore.dylib".data <:+: itm.data) ∧
      detect_bin_type [] = "Objective C" := by
  intro libs
  have key : (libs.any fun itm => containsSub "libswiftCore.dylib".data itm.data) = true ↔
      ∃ itm ∈ libs, "libswiftCore.dylib".data <:+: itm.data := by
    rw [List.any_eq_true]
    exact exists_congr fun itm =>
      and_congr_right fun _ => containsSub_iff_infix "libswiftCore.dylib".data itm.data
  refine ⟨?_, ?_, rfl⟩
  · rw [detect_bin_type]
    by_cases hc : (libs.any fun itm => containsSub "libswiftCore.dylib".data itm.data) = true
    · rw [if_pos hc]
      exact iff_of_true rfl (key.mp hc)
    · rw [if_neg hc]
      exact iff_of_false (by decide) fun h => hc (key.mpr h)
  · rw [detect_bin_type]
    by_cases hc : (libs.any fun itm => containsSub "libswiftCore.dylib".data itm.data) = true
    · rw [if_pos hc]
      exact iff_of_false (by decide) fun hn => hn (key.mp hc)
    · rw [if_neg hc]
      exact iff_of_true rfl fun h => hc (key.mpr h)

/-- Witness for C4: `detect_bin_type` classifies a list carrying the marker
as `'Swift'` and a list without it as `'Objective C'`. -/
theorem detect_bin_type_spec_witness :
    detect_bin_type ["@rpath/libswiftCore.dylib"] = "Swift" ∧
    detect_bin_type ["libSystem.dylib"] = "Objective C" :=
  ⟨(detect_bin_type_spec ["@rpath/libswiftCore.dylib"]).1.mpr
      ⟨"@rpath/libswiftCore.dylib", by simp, "@rpath/".data, [], by decide⟩,
   (detect_bin_type_spec ["libSystem.dylib"]).2.1.mpr (by decide)⟩

/-- C5 counterexample: a fat container whose first slice (`h32ex`) has a
non-64-bit magic and whose second slice (`h64ex`) is a well-formed 64-bit
little-endian header.  The claim requires the header info to come from the
first embedded header whose magic matches a 64-bit signature — here the
second slice, so bit-width `'64-bit'` — but `get_bin_info` returns out of
the first loop iteration unconditionally and reports `'32-bit'`. -/
theorem get_bin_info_fat_counterexample :
    get_bin_info_headers (fun _ => "x86") (fun _ _ => "sub") [h32ex, h64ex] =
      some { endian := '<', bit := "32-bit", arch := "x86", subarch := "sub" } ∧
    (h64ex.magic = MH_MAGIC_64 ∧ h64ex.endian = '<') ∧
    ("32-bit" : String) ≠ "64-bit" :=
  ⟨rfl, ⟨rfl, rfl⟩, by decide⟩

/-- C5 (amended): `get_bin_info` derives its header info from the *first*
embedded header of the container, whatever its magic: a first header whose
magic is a 64-bit little- or big-endian signature is classified
`'64-bit'` (in particular, a well-formed 64-bit little-endian first header
yields bit-width `'64-bit'` and little endianness), any other first header
is classified `'32-bit'` even when a later slice is 64-bit, and a
container without headers yields `None`. -/
theorem get_bin_info_first_header :
    ∀ (cpuName : Nat → String) (cpuSub : Nat → Nat → String)
      (h : MachHeader) (rest : List MachHeader),
      get_bin_info_headers cpuName cpuSub (h :: rest) =
        some { endian := h.endian,
               bit := if h.magic = MH_MAGIC_64 ∨ h.magic = MH_CIGAM_64 then
                        "64-bit"
                      else
                        "32-bit",
               arch := cpuName h.cputype,
               subarch := cpuSub h.cputype h.cpusubtype } ∧
      (h.magic = MH_MAGIC_64 ∧ h.endian = '<' →
        (get_bin_info_headers cpuName cpuSub (h :: rest)).map (fun i => (i.bit, i.endian)) =
          some ("64-bit", '<')) ∧
      get_bin_info_headers cpuName cpuSub [] = none := by
  intro cpuName cpuSub h rest
  refine ⟨rfl, ?_, rfl⟩
  rintro ⟨h1, h2⟩
  simp [get_bin_info_headers, h1, h2]

/-- Witness for C5 (amended) at a concrete single-architecture 64-bit
little-endian container. -/
theorem get_bin_info_first_header_witness :
    (get_bin_info_headers (fun _ => "ARM64") (fun _ _ => "ARM64_ALL") [h64ex]).map
        (fun i => (i.bit, i.endian)) = some ("64-bit", '<') :=
  (get_bin_info_first_header (fun _ => "ARM64") (fun _ _ => "ARM64_ALL") h64ex []).2.1 ⟨rfl, rfl⟩

/-- C8: code-bug evidence.  `strings_on_ipa` does catch every failure of
the external string extractor — the result is never a propagated
exception — but the handler only logs, so the function falls off its end
and returns Python `None` (`Except.ok none`) instead of the empty
collection that the dead initialisation `unique_str = []` was meant to
provide; on success it returns the deduplicated list. -/
theorem strings_on_ipa_failure_returns_none :
    strings_on_ipa (Except.error PyExn.exn) = Except.ok none ∧
    (Except.ok none : Except PyExn (Option (List String))) ≠ Except.ok (some []) ∧
    strings_on_ipa (Except.ok ["A", "B", "A"]) = Except.ok (some ["A", "B"]) :=
  ⟨rfl, by simp, rfl⟩

/-- C10: whenever `class_dump` grants execute permission, the `os.chmod`
call passes exactly `stat.S_IEXEC` (octal `0o100`), and since POSIX chmod
replaces the permission bits wholesale, the resulting mode has every
read, write, group and other bit cleared (mask `0o677 = 447`) and only the
owner-execute bit set, whatever the prior mode was. -/
theorem class_dump_chmod_mode (env : ClassDumpEnv)
    (tools_dir bin_path app_dir bin_type : String) (p : String) (m : Nat)
    (hmem : Event.chmod p m ∈ (class_dump env tools_dir bin_path app_dir bin_type).2) :
    m = S_IEXEC ∧
    ∀ old : Nat, Nat.land (applyChmod old m) 447 = 0 ∧
      Nat.land (applyChmod old m) S_IEXEC = S_IEXEC := by
  have hm : m = S_IEXEC := by
    rcases class_dump_shape env tools_dir bin_path app_dir bin_type with
      ⟨args, pre, _, hpm, heq⟩ | ⟨_, _, hpm⟩
    · rw [heq] at hmem
      exact hpm p m (chmod_mem_class_dump_exec env tools_dir bin_path app_dir args pre p m hmem)
    · exact hpm p m hmem
  subst hm
  refine ⟨rfl, fun old => ⟨?_, ?_⟩⟩
  · show Nat.land S_IEXEC 447 = 0
    decide
  · show Nat.land S_IEXEC S_IEXEC = S_IEXEC
    decide

/-- Witness for C10: in `chmodToolEnv` the selected `class-dump` tool lacks
execute permission, the grant event appears in the trace, and the granted
mode clears every non-owner-execute bit of a fully-open prior mode
`0o777`. -/
theorem class_dump_chmod_mode_witness :
    S_IEXEC = S_IEXEC ∧ Nat.land (applyChmod 511 S_IEXEC) 447 = 0 ∧
      Nat.land (applyChmod 511 S_IEXEC) S_IEXEC = S_IEXEC := by
  have h := class_dump_chmod_mode chmodToolEnv "tools" "bin" "app" "Objective C"
      "tools/class-dump" S_IEXEC (by decide)
  exact ⟨h.1, (h.2 511).1, (h.2 511).2⟩

/-- C1 counterexample: in `envListdirRaises` the very first internal stage,
`os.listdir(src)`, throws; `binary_analysis` swallows it and returns
Python `None` (`Except.ok none`) — a null result, not a best-effort report
dictionary as the claim requires. -/
theorem binary_analysis_returns_none_counterexample :
    binary_analysis envListdirRaises "src" "tools" "app" "" = Except.ok none := rfl

/-- C1 (amended): `binary_analysis` never raises past its boundary — its
result is always an `Except.ok` value — but it does not always return a
report dictionary: when an internal stage throws, the `except Exception`
handler makes it return Python `None`; only when the body completes does it
return the assembled dictionary. -/
theorem binary_analysis_fail_soft :
    ∀ (env : PipelineEnv) (src tools_dir app_dir executable_name : String),
      (∀ ex : PyExn,
        binary_analysis env src tools_dir app_dir executable_name ≠ Except.error ex) ∧
      (∀ ex : PyExn,
        binary_analysis_body env src tools_dir app_dir executable_name = Except.error ex →
          binary_analysis env src tools_dir app_dir executable_name = Except.ok none) ∧
      (∀ r : Report,
        binary_analysis_body env src tools_dir app_dir executable_name = Except.ok r →
          binary_analysis env src tools_dir app_dir executable_name = Except.ok (some r)) := by
  intro env src tools_dir app_dir executable_name
  cases hb : binary_analysis_body env src tools_dir app_dir executable_name with
  | ok r =>
    refine ⟨?_, ?_, ?_⟩
    · intro x
      simp [binary_analysis, hb]
    · intro x hx
      exact absurd hx (by simp)
    · intro r' hr'
      rw [Except.ok.injEq] at hr'
      rw [binary_analysis, hb, hr']
  | error ex =>
    refine ⟨?_, ?_, ?_⟩
    · intro x
      simp [binary_analysis, hb]
    · intro x hx
      rw [binary_analysis, hb]
    · intro r' hr'
      exact absurd hr' (by simp)

/-- Witness for C1 (amended): a stage throw (`os.listdir`) yields the
`None` return. -/
theorem binary_analysis_fail_soft_witness :
    binary_analysis envListdirRaises "s" "t" "a" "" = Except.ok none :=
  (binary_analysis_fail_soft envListdirRaises "s" "t" "a" "").2.1 PyExn.exn rfl

/-- C2 counterexample: with `envNoBinary` the resolved executable path does
not exist.  The returned dictionary has its `'libs'`, `'bin_res'` and
`'strings'` keys at empty defaults, but the `'macho'` (header info) and
`'bin_type'` keys are simply absent (`none`) — not present with an explicit
unknown value (`some none` would be a present-but-null key), contradicting
both the every-field-present invariant and the
`headerInfo = unknown` clause of the claim. -/
theorem binary_analysis_absent_keys_counterexample :
    binary_analysis envNoBinary "src" "tools" "app" "" =
      Except.ok (some { libs := [], bin_res := [], strings := some [],
                        macho := none, bin_type := none }) ∧
    (none : Option (Option BinInfo)) ≠ some none :=
  ⟨rfl, by simp⟩

/-- C2 (amended): when the resolved executable path does not exist on disk,
`binary_analysis` returns a dictionary whose `'libs'`, `'bin_res'` and
`'strings'` keys hold empty defaults, while the `'macho'` and `'bin_type'`
keys are absent from the dictionary altogether rather than present with
unknown values. -/
theorem binary_analysis_missing_binary (env : PipelineEnv)
    (src tools_dir app_dir executable_name : String) (dirs : List String)
    (hls : env.listdir = Except.ok dirs)
    (hmiss : env.fileExists (resolve_bin_path env.fileExists src executable_name dirs) = false) :
    binary_analysis env src tools_dir app_dir executable_name =
      Except.ok (some { libs := [], bin_res := [], strings := some [],
                        macho := none, bin_type := none }) := by
  rw [binary_analysis, binary_analysis_body, hls]
  simp only [hmiss, if_pos]

/-- Witness for C2 (amended) on the concrete `envNoBinary` bundle. -/
theorem binary_analysis_missing_binary_witness :
    binary_analysis envNoBinary "s" "t" "a" "Demo" =
      Except.ok (some { libs := [], bin_res := [], strings := some [],
                        macho := none, bin_type := none }) :=
  binary_analysis_missing_binary envNoBinary "s" "t" "a" "Demo" ["Demo.app"] rfl rfl

/-- C3 counterexample: in `envParseError` the executable exists and every
stage after header extraction would succeed, yet the parse error raised by
`get_bin_info` aborts the whole analysis — `binary_analysis` returns
Python `None`, instead of proceeding to the remaining stages with an
unknown header as the claim requires. -/
theorem binary_analysis_parse_error_counterexample :
    binary_analysis envParseError "src" "tools" "app" "" = Except.ok none := rfl

/-- C3 (amended): a parse error raised by `get_bin_info` is caught only by
the `try/except` at the boundary of `binary_analysis` itself, not at the
call site: none of the remaining stages runs and the whole analysis
returns Python `None` instead of a report. -/
theorem binary_analysis_parse_error_aborts (env : PipelineEnv)
    (src tools_dir app_dir executable_name : String) (dirs : List String) (ex : PyExn)
    (hls : env.listdir = Except.ok dirs)
    (hexists : env.fileExists (resolve_bin_path env.fileExists src executable_name dirs) = true)
    (hparse : env.machoParse = Except.error ex) :
    binary_analysis env src tools_dir app_dir executable_name = Except.ok none := by
  rw [binary_analysis, binary_analysis_body, hls]
  simp [hexists, get_bin_info, hparse]

/-- Witness for C3 (amended) on the concrete `envParseError` environment. -/
theorem binary_analysis_parse_error_aborts_witness :
    binary_analysis envParseError "s" "t" "a" "Demo" = Except.ok none :=
  binary_analysis_parse_error_aborts envParseError "s" "t" "a" "Demo" ["Demo.app"]
    PyExn.exn rfl rfl rfl

lemma class_dump_exec_sentinel (env : ClassDumpEnv) (t b a : String)
    (args : List String) (pre : List Event) (cd : List Nat)
    (hpre : invokes pre = [])
    (hd : env.system = "Darwin")
    (hrun : env.run1 = SubprocResult.out cd)
    (hsent : containsSub brokenSentinel cd = true) :
    invokes (class_dump_exec env t b a args pre).2 =
      [(args, some 30, true), ([osPathJoin t "class-dump-swift", b], none, false)] := by
  rw [class_dump_exec, hrun]
  dsimp only
  rw [if_pos ⟨hsent, hd⟩]
  cases env.run2 <;> (rw [invokes_append, hpre]; simp [invokes])

/-- C6 counterexample: in `sentinelToolEnv` the primary tool's output
carries the broken-output sentinel on Darwin, so `class_dump` performs the
fail-safe invocation — and that subprocess call has *no* timeout and *no*
stderr suppression (`none`, `false`), contradicting the claim that every
class-dump tool invocation runs with stderr suppressed and a 30-unit
timeout. -/
theorem class_dump_retry_unbounded_counterexample :
    Event.invoke ["tools/class-dump-swift", "bin"] none false ∈
      (class_dump sentinelToolEnv "tools" "bin" "app" "Swift").2 := by
  decide

/-- C6 (amended): the *primary* class-dump invocation always runs with
stderr suppressed and a hard 30-unit timeout, and when it exceeds the
budget `class_dump` returns empty bytes as a recoverable failure rather
than an unhandled fault; the fail-safe retry invocation, however, runs with
no timeout and no stderr suppression. -/
theorem class_dump_invocation_discipline :
    ∀ (env : ClassDumpEnv) (tools_dir bin_path app_dir bin_type : String),
      (∀ x, (invokes (class_dump env tools_dir bin_path app_dir bin_type).2)[0]? = some x →
          x.2.1 = some 30 ∧ x.2.2 = true) ∧
      (∀ x, (invokes (class_dump env tools_dir bin_path app_dir bin_type).2)[1]? = some x →
          x.2.1 = none ∧ x.2.2 = false) ∧
      (env.run1 = SubprocResult.timeout →
        (class_dump env tools_dir bin_path app_dir bin_type).1 = []) := by
  intro env t b a bt
  rcases class_dump_shape env t b a bt with ⟨args, pre, hinv, _, heq⟩ | ⟨h1, h2, _⟩
  · rw [heq]
    rcases invokes_class_dump_exec env t b a args pre hinv with hi | hi <;> rw [hi]
    · refine ⟨?_, ?_, ?_⟩
      · intro x hx
        simp only [List.getElem?_cons_zero, Option.some.injEq] at hx
        subst hx
        exact ⟨rfl, rfl⟩
      · intro x hx
        simp at hx
      · intro ht
        exact class_dump_exec_timeout env t b a args pre ht
    · refine ⟨?_, ?_, ?_⟩
      · intro x hx
        simp only [List.getElem?_cons_zero, Option.some.injEq] at hx
        subst hx
        exact ⟨rfl, rfl⟩
      · intro x hx
        simp only [List.getElem?_cons_succ, List.getElem?_cons_zero,
          Option.some.injEq] at hx
        subst hx
        exact ⟨rfl, rfl⟩
      · intro ht
        exact class_dump_exec_timeout env t b a args pre ht
  · rw [h2]
    refine ⟨?_, ?_, fun _ => h1⟩
    · intro x hx
      simp at hx
    · intro x hx
      simp at hx

/-- Witness for C6 (amended): with `timeoutToolEnv` the primary invocation
times out, `class_dump` returns empty bytes, and the recorded primary
invocation carried the 30-unit timeout and stderr suppression. -/
theorem class_dump_invocation_discipline_witness :
    (class_dump timeoutToolEnv "tools" "bin" "app" "Swift").1 = [] ∧
    ((["tools/class-dump-swift", "bin"], (some 30 : Option Nat), true).2.1 = some 30 ∧
     (["tools/class-dump-swift", "bin"], (some 30 : Option Nat), true).2.2 = true) :=
  ⟨(class_dump_invocation_discipline timeoutToolEnv "tools" "bin" "app" "Swift").2.2 rfl,
   (class_dump_invocation_discipline timeoutToolEnv "tools" "bin" "app" "Swift").1
     (["tools/class-dump-swift", "bin"], some 30, true) (by decide)⟩

/-- C7 counterexample: for a `'Swift'` binary the primary tool already is
`class-dump-swift`; the claim says the retry uses the tool of the *other*
runtime kind (`class-dump`), but the recorded fail-safe invocation runs
`tools/class-dump-swift` again — the same tool, not the alternate one. -/
theorem class_dump_retry_same_tool_counterexample :
    invokes (class_dump sentinelToolEnv "tools" "bin" "app" "Swift").2 =
      [(["tools/class-dump-swift", "bin"], some 30, true),
       (["tools/class-dump-swift", "bin"], none, false)] ∧
    ("tools/class-dump-swift" : String) ≠ "tools/class-dump" := by
  exact ⟨by decide, by decide⟩

/-- C7 (amended): when the primary output contains the broken-output
sentinel and the platform is Darwin, `class_dump` retries exactly once —
the trace holds exactly two invocations — and the retry always runs the
bundled `tools_dir/class-dump-swift`, regardless of the binary type (so it
is the alternate runtime tool only when the first pick was not
`class-dump-swift` itself). -/
theorem class_dump_retry_swift_tool (env : ClassDumpEnv)
    (tools_dir bin_path app_dir bin_type : String) (cd : List Nat)
    (hd : env.system = "Darwin")
    (hok : env.xok (darwin_class_dump_bin env tools_dir bin_type) = true ∨ env.chmodOk = true)
    (hrun : env.run1 = SubprocResult.out cd)
    (hsent : containsSub brokenSentinel cd = true) :
    (invokes (class_dump env tools_dir bin_path app_dir bin_type).2).length = 2 ∧
    (invokes (class_dump env tools_dir bin_path app_dir bin_type).2)[1]? =
      some ([osPathJoin tools_dir "class-dump-swift", bin_path], none, false) := by
  rw [class_dump, if_pos hd]
  by_cases hx : env.xok (darwin_class_dump_bin env tools_dir bin_type) = true
  · rw [if_pos hx,
      class_dump_exec_sentinel env tools_dir bin_path app_dir _ [] cd rfl hd hrun hsent]
    exact ⟨rfl, rfl⟩
  · rcases hok with hok | hok
    · exact absurd hok hx
    · rw [if_neg hx, if_pos hok,
        class_dump_exec_sentinel env tools_dir bin_path app_dir _
          [Event.chmod (darwin_class_dump_bin env tools_dir bin_type) S_IEXEC] cd
          (by simp [invokes]) hd hrun hsent]
      exact ⟨rfl, rfl⟩

/-- Witness for C7 (amended) on `sentinelToolEnv` with an Objective-C
binary. -/
theorem class_dump_retry_swift_tool_witness :
    (invokes (class_dump sentinelToolEnv "t" "b" "a" "Objective C").2).length = 2 ∧
    (invokes (class_dump sentinelToolEnv "t" "b" "a" "Objective C").2)[1]? =
      some ([osPathJoin "t" "class-dump-swift", "b"], none, false) :=
  class_dump_retry_swift_tool sentinelToolEnv "t" "b" "a" "Objective C" brokenSentinel
    rfl (Or.inl rfl) rfl (by decide)

/-- C9 counterexample: in `noSwiftXokToolEnv` the primary `class-dump`
tool is executable but `class-dump-swift` is not; the sentinel triggers the
fail-safe retry, which is invoked with *no* permission check or grant —
the trace fails the `execEnsured` discipline, so a subprocess is started
on a non-executable tool, contradicting the claim that every invocation
(including the fail-safe retry) is preceded by a permission ensure. -/
theorem class_dump_retry_permission_counterexample :
    execEnsured noSwiftXokToolEnv.xok
      (class_dump noSwiftXokToolEnv "tools" "bin" "app" "Objective C").2 = false ∧
    noSwiftXokToolEnv.xok "tools/class-dump-swift" = false ∧
    Event.invoke ["tools/class-dump-swift", "bin"] none false ∈
      (class_dump noSwiftXokToolEnv "tools" "bin" "app" "Objective C").2 := by
  exact ⟨by decide, by decide, by decide⟩

/-- C9 (amended): the execute-permission check and grant applies only to
the primary Darwin tool selection, and it does happen before the primary
invocation: when the selected tool is already executable the trace starts
with its invocation, and when it is not, the trace starts with the
`chmod` grant immediately followed by the invocation.  (The fail-safe
retry and the Linux path perform no permission check, per the
counterexample.) -/
theorem class_dump_primary_permission_only (env : ClassDumpEnv)
    (tools_dir bin_path app_dir bin_type : String)
    (hd : env.system = "Darwin") :
    (env.xok (darwin_class_dump_bin env tools_dir bin_type) = true →
      (class_dump env tools_dir bin_path app_dir bin_type).2.head? =
        some (Event.invoke [darwin_class_dump_bin env tools_dir bin_type, bin_path]
          (some 30) true)) ∧
    (env.xok (darwin_class_dump_bin env tools_dir bin_type) = false → env.chmodOk = true →
      (class_dump env tools_dir bin_path app_dir bin_type).2.head? =
        some (Event.chmod (darwin_class_dump_bin env tools_dir bin_type) S_IEXEC) ∧
      (class_dump env tools_dir bin_path app_dir bin_type).2[1]? =
        some (Event.invoke [darwin_class_dump_bin env tools_dir bin_type, bin_path]
          (some 30) true)) := by
  constructor
  · intro hx
    rw [class_dump, if_pos hd, if_pos hx]
    obtain ⟨rest, hr⟩ := class_dump_exec_trace_shape env tools_dir bin_path app_dir
      [darwin_class_dump_bin env tools_dir bin_type, bin_path] []
    rw [hr]
    rfl
  · intro hx hc
    rw [class_dump, if_pos hd, if_neg (by simp [hx]), if_pos hc]
    obtain ⟨rest, hr⟩ := class_dump_exec_trace_shape env tools_dir bin_path app_dir
      [darwin_class_dump_bin env tools_dir bin_type, bin_path]
      [Event.chmod (darwin_class_dump_bin env tools_dir bin_type) S_IEXEC]
    rw [hr]
    refine ⟨rfl, ?_⟩
    simp

/-- Witness for C9 (amended): in `chmodToolEnv` the selected tool is not
executable and `class_dump` emits the grant and then the guarded primary
invocation. -/
theorem class_dump_primary_permission_only_witness :
    (class_dump chmodToolEnv "tools" "bin" "app" "Objective C").2.head? =
      some (Event.chmod (darwin_class_dump_bin chmodToolEnv "tools" "Objective C") S_IEXEC) ∧
    (class_dump chmodToolEnv "tools" "bin" "app" "Objective C").2[1]? =
      some (Event.invoke [darwin_class_dump_bin chmodToolEnv "tools" "Objective C", "bin"]
        (some 30) true) :=
  (class_dump_primary_permission_only chmodToolEnv "tools" "bin" "app" "Objective C" rfl).2
    rfl rfl
